import Mathlib

/-!
Verification of the Device Flow Coordinator of the GitHub App Token Broker
(`src/worker.js`): the `/user-token/start` and `/user-token/poll` handlers,
embedded as pure Lean functions.

Modelling conventions:
* A JSON object field that may be absent is an `Option`; JavaScript's
  truthiness test `if (x)` on a string-valued field is `truthy` below
  (absent/`undefined` and the empty string are falsy).
* The KV namespace `env.DEVICE_CODES` is an association list from device
  codes to stored sessions; its possible absence from the environment is an
  outer `Option`.
* `fetch` results are passed in as data (`TokenData` for the token exchange,
  `StartUpstream` for the device-code request); the outcome records whether
  the handler reached the `fetch` (`upstreamCalled`) and whether it read the
  store (`storeRead`).
* `Date.now()` is the parameter `now` (milliseconds); the millisecond value
  that `new Date(...).toISOString()` renders is kept as the numeric field
  `expires_at_ms` of the response body.
* `JSON.stringify` drops `undefined` fields, so a body field equal to `none`
  is a field absent from the serialized response.
-/

/-- JavaScript truthiness of a possibly-absent string value:
`undefined` and `""` are falsy, every other string is truthy. -/
def truthy : Option String → Bool
  | none => false
  | some s => s != ""

/-- The session record stored under the device code by `handleUserTokenStart`:
the upstream device-code payload spread together with `created_at` and the
passthrough `redirect_uri`. -/
structure DeviceSession where
  device_code : String
  user_code : String
  verification_uri : String
  expires_in : Nat
  interval : Nat
  created_at : Nat
  redirect_uri : Option String
deriving Repr, DecidableEq

/-- Contents of the `DEVICE_CODES` KV namespace. -/
abbrev KV := List (String × DeviceSession)

/-- `env.DEVICE_CODES.get(key, 'json')`. -/
def kvGet (kv : KV) (k : String) : Option DeviceSession :=
  match kv.find? (fun p => p.1 == k) with
  | some p => some p.2
  | none => none

/-- `env.DEVICE_CODES.delete(key)` (deleting an absent key is a no-op). -/
def kvDelete (kv : KV) (k : String) : KV :=
  kv.filter (fun p => p.1 != k)

/-- `env.DEVICE_CODES.put(key, value, {expirationTtl})` (the TTL itself is
enforced by the store, so only the mapping is modelled). -/
def kvPut (kv : KV) (k : String) (v : DeviceSession) : KV :=
  (k, v) :: kvDelete kv k

/-- The worker environment bindings the two handlers consult. -/
structure Env where
  GITHUB_CLIENT_ID : Option String
  DEVICE_CODES : Option KV
deriving Repr, DecidableEq

/-- The parsed JSON of the upstream `/login/oauth/access_token` response. -/
structure TokenData where
  error : Option String := none
  error_description : Option String := none
  access_token : Option String := none
  token_type : Option String := none
  scope : Option String := none
  expires_in : Option Nat := none
deriving Repr, DecidableEq

/-- JSON body of a `/user-token/poll` response; `none` fields are dropped by
`JSON.stringify`. -/
structure RespBody where
  error : Option String := none
  error_description : Option String := none
  interval : Option Nat := none
  access_token : Option String := none
  token_type : Option String := none
  expires_at_ms : Option Nat := none
  scope : Option String := none
deriving Repr, DecidableEq

/-- An HTTP response: status code and JSON body. -/
structure HttpResponse where
  status : Nat
  body : RespBody
deriving Repr, DecidableEq

/-- Observable outcome of one `handleUserTokenPoll` invocation: the HTTP
response, the resulting `DEVICE_CODES` contents, and whether the store was
read and the upstream token endpoint contacted. -/
structure PollOutcome where
  resp : HttpResponse
  DEVICE_CODES : Option KV
  storeRead : Bool
  upstreamCalled : Bool
deriving Repr, DecidableEq

/-- Embedding of `handleUserTokenPoll` (src/worker.js:182-310): the
`/user-token/poll` handler. `device_code` is the request body's field,
`data` the parsed upstream token-exchange response, `now` is `Date.now()`. -/
def handleUserTokenPoll (env : Env) (device_code : Option String)
    (data : TokenData) (now : Nat) : PollOutcome :=
  if truthy device_code = false then
    { resp := { status := 400, body := { error := some "device_code is required" } },
      DEVICE_CODES := env.DEVICE_CODES, storeRead := false, upstreamCalled := false }
  else
    match env.DEVICE_CODES with
    | none =>
        { resp := { status := 503,
                    body := { error := some "server_error",
                              error_description :=
                                some "Device flow not configured on this server" } },
          DEVICE_CODES := none, storeRead := false, upstreamCalled := false }
    | some kv =>
        let dc := device_code.getD ""
        match kvGet kv dc with
        | none =>
            { resp := { status := 400,
                        body := { error := some "expired_token",
                                  error_description := some "Device code has expired" } },
              DEVICE_CODES := some kv, storeRead := true, upstreamCalled := false }
        | some deviceData =>
            if truthy data.error then
              if data.error == some "authorization_pending" then
                { resp := { status := 202,
                            body := { error := some "authorization_pending",
                                      error_description :=
                                        some "User has not yet authorized the request",
                                      interval := some deviceData.interval } },
                  DEVICE_CODES := some kv, storeRead := true, upstreamCalled := true }
              else if data.error == some "slow_down" then
                { resp := { status := 429,
                            body := { error := some "slow_down",
                                      error_description := some "Polling too frequently",
                                      interval := some (deviceData.interval + 5) } },
                  DEVICE_CODES := some kv, storeRead := true, upstreamCalled := true }
              else
                { resp := { status := 400,
                            body := { error := data.error,
                                      error_description := data.error_description } },
                  DEVICE_CODES := some kv, storeRead := true, upstreamCalled := true }
            else
              let expiresAtMs :=
                now + (match data.expires_in with
                       | none => 28800
                       | some n => if n == 0 then 28800 else n) * 1000
              { resp := { status := 200,
                          body := { access_token := data.access_token,
                                    token_type := data.token_type,
                                    expires_at_ms := some expiresAtMs,
                                    scope := data.scope } },
                DEVICE_CODES := some (kvDelete kv dc),
                storeRead := true, upstreamCalled := true }

/-- The parsed JSON of the upstream `/login/device/code` response together
with `response.ok`. -/
structure StartUpstream where
  ok : Bool
  device_code : String
  user_code : String
  verification_uri : String
  expires_in : Nat
  interval : Nat
  error : Option String := none
  error_description : Option String := none
deriving Repr, DecidableEq

/-- JSON body of a `/user-token/start` response; `none` fields are dropped by
`JSON.stringify`. -/
structure StartBody where
  error : Option String := none
  device_code : Option String := none
  user_code : Option String := none
  verification_uri : Option String := none
  expires_in : Option Nat := none
  interval : Option Nat := none
deriving Repr, DecidableEq

/-- Observable outcome of one `handleUserTokenStart` invocation. -/
structure StartOutcome where
  status : Nat
  body : StartBody
  DEVICE_CODES : Option KV
  upstreamCalled : Bool
deriving Repr, DecidableEq

/-- The thrown message on a non-ok upstream start response:
`data.error_description || data.error || 'Failed to start device flow'`. -/
def startFailMsg (u : StartUpstream) : String :=
  if truthy u.error_description then u.error_description.getD ""
  else if truthy u.error then u.error.getD ""
  else "Failed to start device flow"

/-- Embedding of `handleUserTokenStart` (src/worker.js:109-180): the
`/user-token/start` handler. `upstream` is the upstream device-code
response, `now` is `Date.now()`. -/
def handleUserTokenStart (env : Env) (redirect_uri : Option String)
    (upstream : StartUpstream) (now : Nat) : StartOutcome :=
  if truthy env.GITHUB_CLIENT_ID = false then
    { status := 500, body := { error := some "GitHub Client ID not configured" },
      DEVICE_CODES := env.DEVICE_CODES, upstreamCalled := false }
  else if upstream.ok = false then
    { status := 500, body := { error := some (startFailMsg upstream) },
      DEVICE_CODES := env.DEVICE_CODES, upstreamCalled := true }
  else
    let newStore : Option KV :=
      match env.DEVICE_CODES with
      | none => none
      | some kv =>
          some (kvPut kv upstream.device_code
            { device_code := upstream.device_code,
              user_code := upstream.user_code,
              verification_uri := upstream.verification_uri,
              expires_in := upstream.expires_in,
              interval := upstream.interval,
              created_at := now,
              redirect_uri := redirect_uri })
    { status := 200,
      body := { device_code := some upstream.device_code,
                user_code := some upstream.user_code,
                verification_uri := some upstream.verification_uri,
                expires_in := some upstream.expires_in,
                interval := some upstream.interval },
      DEVICE_CODES := newStore, upstreamCalled := true }

/-- The terminal response for a device code absent from the store. -/
def expiredResponse : HttpResponse :=
  { status := 400,
    body := { error := some "expired_token",
              error_description := some "Device code has expired" } }

/-- Deleting a key removes it: `kvGet` after `kvDelete` of the same key. -/
theorem kvGet_kvDelete_self (kv : KV) (k : String) :
    kvGet (kvDelete kv k) k = none := by
  unfold kvGet
  have h : List.find? (fun p => p.1 == k) (kvDelete kv k) = none := by
    rw [List.find?_eq_none]
    intro x hx
    have hne : x.1 ≠ k := by
      have hm := (List.mem_filter.mp hx).2
      simpa [bne_iff_ne] using hm
    simp [beq_iff_eq, hne]
  rw [h]

/-- C2: when the upstream token exchange reports `authorization_pending`,
`handleUserTokenPoll` returns status 202 whose body `interval` is the stored
session's `interval`, and the store is left exactly unchanged (no delete and
no write). -/
theorem C2_pending_idempotent (kv : KV) (clientId : Option String) (d : String)
    (s : DeviceSession) (data : TokenData) (now : Nat)
    (hd : d ≠ "") (hs : kvGet kv d = some s)
    (herr : data.error = some "authorization_pending") :
    (handleUserTokenPoll ⟨clientId, some kv⟩ (some d) data now).resp.status = 202 ∧
    (handleUserTokenPoll ⟨clientId, some kv⟩ (some d) data now).resp.body.interval
      = some s.interval ∧
    (handleUserTokenPoll ⟨clientId, some kv⟩ (some d) data now).DEVICE_CODES
      = some kv := by
  simp [handleUserTokenPoll, truthy, hd, hs, herr]

/-- C2 witness: a concrete pending poll. -/
theorem C2_pending_idempotent_witness :
    (handleUserTokenPoll
        ⟨some "cid", some [("d", ⟨"d", "U-1", "https://v", 900, 5, 0, none⟩)]⟩
        (some "d") { error := some "authorization_pending" } 0).resp.status = 202 ∧
    (handleUserTokenPoll
        ⟨some "cid", some [("d", ⟨"d", "U-1", "https://v", 900, 5, 0, none⟩)]⟩
        (some "d") { error := some "authorization_pending" } 0).resp.body.interval
      = some 5 ∧
    (handleUserTokenPoll
        ⟨some "cid", some [("d", ⟨"d", "U-1", "https://v", 900, 5, 0, none⟩)]⟩
        (some "d") { error := some "authorization_pending" } 0).DEVICE_CODES
      = some [("d", ⟨"d", "U-1", "https://v", 900, 5, 0, none⟩)] :=
  C2_pending_idempotent [("d", ⟨"d", "U-1", "https://v", 900, 5, 0, none⟩)]
    (some "cid") "d" ⟨"d", "U-1", "https://v", 900, 5, 0, none⟩
    { error := some "authorization_pending" } 0
    (by decide) (by decide) rfl

/-- C3: when the upstream token exchange reports `slow_down`,
`handleUserTokenPoll` returns status 429 whose body `interval` is the stored
interval plus the fixed offset 5 (strictly greater), the session is not
deleted and the bumped interval is not persisted (the store is exactly
unchanged), so a repeated `slow_down` poll again returns `interval + 5`. -/
theorem C3_slow_down_widening (kv : KV) (clientId : Option String) (d : String)
    (s : DeviceSession) (data data2 : TokenData) (now now2 : Nat)
    (hd : d ≠ "") (hs : kvGet kv d = some s)
    (herr : data.error = some "slow_down") (herr2 : data2.error = some "slow_down") :
    (handleUserTokenPoll ⟨clientId, some kv⟩ (some d) data now).resp.status = 429 ∧
    (handleUserTokenPoll ⟨clientId, some kv⟩ (some d) data now).resp.body.interval
      = some (s.interval + 5) ∧
    s.interval < s.interval + 5 ∧
    (handleUserTokenPoll ⟨clientId, some kv⟩ (some d) data now).DEVICE_CODES
      = some kv ∧
    (handleUserTokenPoll ⟨clientId, some kv⟩ (some d) data2 now2).resp.body.interval
      = some (s.interval + 5) := by
  refine ⟨?_, ?_, ?_, ?_, ?_⟩ <;>
    simp [handleUserTokenPoll, truthy, hd, hs, herr, herr2]

/-- C3 witness: a concrete slow-down poll with stored interval 5 returning 10
twice in a row. -/
theorem C3_slow_down_widening_witness :
    (handleUserTokenPoll
        ⟨some "cid", some [("d", ⟨"d", "U-1", "https://v", 900, 5, 0, none⟩)]⟩
        (some "d") { error := some "slow_down" } 0).resp.status = 429 ∧
    (handleUserTokenPoll
        ⟨some "cid", some [("d", ⟨"d", "U-1", "https://v", 900, 5, 0, none⟩)]⟩
        (some "d") { error := some "slow_down" } 0).resp.body.interval = some 10 ∧
    (5 : Nat) < 5 + 5 ∧
    (handleUserTokenPoll
        ⟨some "cid", some [("d", ⟨"d", "U-1", "https://v", 900, 5, 0, none⟩)]⟩
        (some "d") { error := some "slow_down" } 0).DEVICE_CODES
      = some [("d", ⟨"d", "U-1", "https://v", 900, 5, 0, none⟩)] ∧
    (handleUserTokenPoll
        ⟨some "cid", some [("d", ⟨"d", "U-1", "https://v", 900, 5, 0, none⟩)]⟩
        (some "d") { error := some "slow_down" } 7).resp.body.interval = some 10 :=
  C3_slow_down_widening [("d", ⟨"d", "U-1", "https://v", 900, 5, 0, none⟩)]
    (some "cid") "d" ⟨"d", "U-1", "https://v", 900, 5, 0, none⟩
    { error := some "slow_down" } { error := some "slow_down" } 0 7
    (by decide) (by decide) rfl rfl

/-- C4: any poll on a device code absent from the store — never created or
lapsed via TTL — yields one and the same terminal response: status 400 with
error `expired_token` and description `Device code has expired`; two such
polls are indistinguishable from the response alone. -/
theorem C4_absent_indistinguishable (kv1 kv2 : KV) (c1 c2 : Option String)
    (d1 d2 : String) (data1 data2 : TokenData) (n1 n2 : Nat)
    (hd1 : d1 ≠ "") (hd2 : d2 ≠ "")
    (ha1 : kvGet kv1 d1 = none) (ha2 : kvGet kv2 d2 = none) :
    (handleUserTokenPoll ⟨c1, some kv1⟩ (some d1) data1 n1).resp
      = expiredResponse ∧
    (handleUserTokenPoll ⟨c2, some kv2⟩ (some d2) data2 n2).resp
      = expiredResponse ∧
    (handleUserTokenPoll ⟨c1, some kv1⟩ (some d1) data1 n1).resp
      = (handleUserTokenPoll ⟨c2, some kv2⟩ (some d2) data2 n2).resp := by
  refine ⟨?_, ?_, ?_⟩ <;>
    simp [handleUserTokenPoll, truthy, hd1, hd2, ha1, ha2, expiredResponse]

/-- C4 witness: a never-created code against an empty store and a lapsed code
against a store holding a different session produce the identical terminal
response. -/
theorem C4_absent_indistinguishable_witness :
    (handleUserTokenPoll ⟨some "cid", some []⟩ (some "neverStarted")
        { error := some "authorization_pending" } 0).resp = expiredResponse ∧
    (handleUserTokenPoll ⟨none, some [("other", ⟨"other", "U-2", "https://v", 900, 5, 0, none⟩)]⟩
        (some "lapsed") {} 42).resp = expiredResponse ∧
    (handleUserTokenPoll ⟨some "cid", some []⟩ (some "neverStarted")
        { error := some "authorization_pending" } 0).resp
      = (handleUserTokenPoll
          ⟨none, some [("other", ⟨"other", "U-2", "https://v", 900, 5, 0, none⟩)]⟩
          (some "lapsed") {} 42).resp :=
  C4_absent_indistinguishable [] [("other", ⟨"other", "U-2", "https://v", 900, 5, 0, none⟩)]
    (some "cid") none "neverStarted" "lapsed"
    { error := some "authorization_pending" } {} 0 42
    (by decide) (by decide) rfl (by decide)

/-- C6: a poll whose body has an absent or empty `device_code` returns status
400 with error `device_code is required`, with no store lookup, no upstream
request, and the store untouched — for every environment, configured or not. -/
theorem C6_missing_input (env : Env) (device_code : Option String)
    (data : TokenData) (now : Nat) (h : truthy device_code = false) :
    (handleUserTokenPoll env device_code data now).resp.status = 400 ∧
    (handleUserTokenPoll env device_code data now).resp.body.error
      = some "device_code is required" ∧
    (handleUserTokenPoll env device_code data now).storeRead = false ∧
    (handleUserTokenPoll env device_code data now).upstreamCalled = false ∧
    (handleUserTokenPoll env device_code data now).DEVICE_CODES
      = env.DEVICE_CODES := by
  refine ⟨?_, ?_, ?_, ?_, ?_⟩ <;> simp [handleUserTokenPoll, h]

/-- C6 witness: an absent `device_code` (and, for the first hypothesis, the
equally falsy empty string) against a fully configured environment. -/
theorem C6_missing_input_witness :
    truthy (some "") = false ∧
    (handleUserTokenPoll
        ⟨some "cid", some [("d", ⟨"d", "U-1", "https://v", 900, 5, 0, none⟩)]⟩
        none {} 0).resp.status = 400 ∧
    (handleUserTokenPoll
        ⟨some "cid", some [("d", ⟨"d", "U-1", "https://v", 900, 5, 0, none⟩)]⟩
        none {} 0).resp.body.error = some "device_code is required" ∧
    (handleUserTokenPoll
        ⟨some "cid", some [("d", ⟨"d", "U-1", "https://v", 900, 5, 0, none⟩)]⟩
        none {} 0).storeRead = false ∧
    (handleUserTokenPoll
        ⟨some "cid", some [("d", ⟨"d", "U-1", "https://v", 900, 5, 0, none⟩)]⟩
        none {} 0).upstreamCalled = false := by
  have h := C6_missing_input
    ⟨some "cid", some [("d", ⟨"d", "U-1", "https://v", 900, 5, 0, none⟩)]⟩
    none {} 0 rfl
  exact ⟨by decide, h.1, h.2.1, h.2.2.1, h.2.2.2.1⟩

/-- C7: a start call with `GITHUB_CLIENT_ID` absent returns status 500 with
error `GitHub Client ID not configured`, contacts no upstream endpoint and
leaves the store untouched. -/
theorem C7_start_no_client (env : Env) (redirect_uri : Option String)
    (upstream : StartUpstream) (now : Nat) (h : env.GITHUB_CLIENT_ID = none) :
    (handleUserTokenStart env redirect_uri upstream now).status = 500 ∧
    (handleUserTokenStart env redirect_uri upstream now).body.error
      = some "GitHub Client ID not configured" ∧
    (handleUserTokenStart env redirect_uri upstream now).upstreamCalled = false ∧
    (handleUserTokenStart env redirect_uri upstream now).DEVICE_CODES
      = env.DEVICE_CODES := by
  refine ⟨?_, ?_, ?_, ?_⟩ <;> simp [handleUserTokenStart, truthy, h]

/-- C7 witness: a concrete start call with no client id configured. -/
theorem C7_start_no_client_witness :
    (handleUserTokenStart ⟨none, some []⟩ none
        ⟨true, "d", "U-1", "https://v", 900, 5, none, none⟩ 0).status = 500 ∧
    (handleUserTokenStart ⟨none, some []⟩ none
        ⟨true, "d", "U-1", "https://v", 900, 5, none, none⟩ 0).body.error
      = some "GitHub Client ID not configured" ∧
    (handleUserTokenStart ⟨none, some []⟩ none
        ⟨true, "d", "U-1", "https://v", 900, 5, none, none⟩ 0).upstreamCalled = false ∧
    (handleUserTokenStart ⟨none, some []⟩ none
        ⟨true, "d", "U-1", "https://v", 900, 5, none, none⟩ 0).DEVICE_CODES
      = some [] :=
  C7_start_no_client ⟨none, some []⟩ none
    ⟨true, "d", "U-1", "https://v", 900, 5, none, none⟩ 0 rfl

/-- C1: when a poll on a stored device code observes upstream success (an
access token returned, no truthy `error`), it returns status 200 carrying
that token, the session is deleted from the store within the same call, and
any subsequent poll on the same code finds no session and yields the
terminal 400 expired-or-unknown response — a second token is never issued. -/
theorem C1_single_use (kv : KV) (clientId : Option String) (d : String)
    (s : DeviceSession) (tok : String) (data data2 : TokenData) (now now2 : Nat)
    (hd : d ≠ "") (hs : kvGet kv d = some s)
    (herr : truthy data.error = false) (htok : data.access_token = some tok) :
    (handleUserTokenPoll ⟨clientId, some kv⟩ (some d) data now).resp.status = 200 ∧
    (handleUserTokenPoll ⟨clientId, some kv⟩ (some d) data now).resp.body.access_token
      = some tok ∧
    (handleUserTokenPoll ⟨clientId, some kv⟩ (some d) data now).DEVICE_CODES
      = some (kvDelete kv d) ∧
    kvGet (kvDelete kv d) d = none ∧
    (handleUserTokenPoll ⟨clientId, some (kvDelete kv d)⟩ (some d) data2 now2).resp
      = expiredResponse := by
  have hdc : truthy (some d) = true := by simp [truthy, hd]
  refine ⟨?_, ?_, ?_, kvGet_kvDelete_self kv d, ?_⟩ <;>
    simp [handleUserTokenPoll, hdc, hs, herr, htok, expiredResponse,
      kvGet_kvDelete_self]

/-- C1 witness: one session, one successful poll, then a second poll on the
resulting store: 200 then the terminal 400. -/
theorem C1_single_use_witness :
    (handleUserTokenPoll
        ⟨some "cid", some [("d", ⟨"d", "U-1", "https://v", 900, 5, 0, none⟩)]⟩
        (some "d") { access_token := some "ghu_X" } 0).resp.status = 200 ∧
    (handleUserTokenPoll
        ⟨some "cid", some [("d", ⟨"d", "U-1", "https://v", 900, 5, 0, none⟩)]⟩
        (some "d") { access_token := some "ghu_X" } 0).resp.body.access_token
      = some "ghu_X" ∧
    (handleUserTokenPoll
        ⟨some "cid", some [("d", ⟨"d", "U-1", "https://v", 900, 5, 0, none⟩)]⟩
        (some "d") { access_token := some "ghu_X" } 0).DEVICE_CODES
      = some (kvDelete [("d", ⟨"d", "U-1", "https://v", 900, 5, 0, none⟩)] "d") ∧
    kvGet (kvDelete [("d", ⟨"d", "U-1", "https://v", 900, 5, 0, none⟩)] "d") "d"
      = none ∧
    (handleUserTokenPoll
        ⟨some "cid", some (kvDelete [("d", ⟨"d", "U-1", "https://v", 900, 5, 0, none⟩)] "d")⟩
        (some "d") { access_token := some "ghu_X" } 9).resp = expiredResponse :=
  C1_single_use [("d", ⟨"d", "U-1", "https://v", 900, 5, 0, none⟩)]
    (some "cid") "d" ⟨"d", "U-1", "https://v", 900, 5, 0, none⟩ "ghu_X"
    { access_token := some "ghu_X" } { access_token := some "ghu_X" } 0 9
    (by decide) (by decide) rfl rfl

/-- C8: a successful poll returns status 200 whose body has exactly the four
fields `access_token`, `token_type`, `expires_at`, `scope` (the error and
interval fields are absent), with the token fields echoing upstream, and
`expires_at` is the timestamp `now + expires_in` seconds — defaulting to
28800 seconds when upstream omits `expires_in` or reports it as 0. -/
theorem C8_success_shape (kv : KV) (clientId : Option String) (d : String)
    (s : DeviceSession) (data : TokenData) (now : Nat)
    (hd : d ≠ "") (hs : kvGet kv d = some s) (herr : truthy data.error = false) :
    (handleUserTokenPoll ⟨clientId, some kv⟩ (some d) data now).resp.status = 200 ∧
    (handleUserTokenPoll ⟨clientId, some kv⟩ (some d) data now).resp.body.access_token
      = data.access_token ∧
    (handleUserTokenPoll ⟨clientId, some kv⟩ (some d) data now).resp.body.token_type
      = data.token_type ∧
    (handleUserTokenPoll ⟨clientId, some kv⟩ (some d) data now).resp.body.scope
      = data.scope ∧
    (handleUserTokenPoll ⟨clientId, some kv⟩ (some d) data now).resp.body.error
      = none ∧
    (handleUserTokenPoll ⟨clientId, some kv⟩ (some d) data now).resp.body.error_description
      = none ∧
    (handleUserTokenPoll ⟨clientId, some kv⟩ (some d) data now).resp.body.interval
      = none ∧
    (∀ n : Nat, n ≠ 0 → data.expires_in = some n →
      (handleUserTokenPoll ⟨clientId, some kv⟩ (some d) data now).resp.body.expires_at_ms
        = some (now + n * 1000)) ∧
    ((data.expires_in = none ∨ data.expires_in = some 0) →
      (handleUserTokenPoll ⟨clientId, some kv⟩ (some d) data now).resp.body.expires_at_ms
        = some (now + 28800 * 1000)) := by
  have hdc : truthy (some d) = true := by simp [truthy, hd]
  refine ⟨?_, ?_, ?_, ?_, ?_, ?_, ?_, ?_, ?_⟩
  · simp [handleUserTokenPoll, hdc, hs, herr]
  · simp [handleUserTokenPoll, hdc, hs, herr]
  · simp [handleUserTokenPoll, hdc, hs, herr]
  · simp [handleUserTokenPoll, hdc, hs, herr]
  · simp [handleUserTokenPoll, hdc, hs, herr]
  · simp [handleUserTokenPoll, hdc, hs, herr]
  · simp [handleUserTokenPoll, hdc, hs, herr]
  · intro n hn he
    simp [handleUserTokenPoll, hdc, hs, herr, he, hn]
  · intro he
    rcases he with he | he <;>
      simp [handleUserTokenPoll, hdc, hs, herr, he]

/-- C8 witness: a successful poll carrying `expires_in = 28800` explicitly
(first expiry clause) and one omitting it (default clause). -/
theorem C8_success_shape_witness :
    (handleUserTokenPoll
        ⟨some "cid", some [("d", ⟨"d", "U-1", "https://v", 900, 5, 0, none⟩)]⟩
        (some "d")
        { access_token := some "ghu_X", token_type := some "bearer",
          scope := some "repo", expires_in := some 28800 } 1000).resp.body.expires_at_ms
      = some (1000 + 28800 * 1000) ∧
    (handleUserTokenPoll
        ⟨some "cid", some [("d", ⟨"d", "U-1", "https://v", 900, 5, 0, none⟩)]⟩
        (some "d")
        { access_token := some "ghu_X", token_type := some "bearer",
          scope := some "repo" } 1000).resp.body.expires_at_ms
      = some (1000 + 28800 * 1000) ∧
    (handleUserTokenPoll
        ⟨some "cid", some [("d", ⟨"d", "U-1", "https://v", 900, 5, 0, none⟩)]⟩
        (some "d")
        { access_token := some "ghu_X", token_type := some "bearer",
          scope := some "repo", expires_in := some 28800 } 1000).resp.body.error
      = none := by
  refine ⟨?_, ?_, ?_⟩
  · exact (C8_success_shape [("d", ⟨"d", "U-1", "https://v", 900, 5, 0, none⟩)]
      (some "cid") "d" ⟨"d", "U-1", "https://v", 900, 5, 0, none⟩
      { access_token := some "ghu_X", token_type := some "bearer",
        scope := some "repo", expires_in := some 28800 } 1000
      (by decide) (by decide) rfl).2.2.2.2.2.2.2.1 28800 (by decide) rfl
  · exact (C8_success_shape [("d", ⟨"d", "U-1", "https://v", 900, 5, 0, none⟩)]
      (some "cid") "d" ⟨"d", "U-1", "https://v", 900, 5, 0, none⟩
      { access_token := some "ghu_X", token_type := some "bearer",
        scope := some "repo" } 1000
      (by decide) (by decide) rfl).2.2.2.2.2.2.2.2 (Or.inl rfl)
  · exact (C8_success_shape [("d", ⟨"d", "U-1", "https://v", 900, 5, 0, none⟩)]
      (some "cid") "d" ⟨"d", "U-1", "https://v", 900, 5, 0, none⟩
      { access_token := some "ghu_X", token_type := some "bearer",
        scope := some "repo", expires_in := some 28800 } 1000
      (by decide) (by decide) rfl).2.2.2.2.1

/-- C5 counterexample: with the store unconfigured, a poll whose body has no
`device_code` returns status 400 (`device_code is required`), not 503 — the
missing-input check precedes the store-configuration check, so not every
poll against an unconfigured store returns 503. -/
theorem C5_counterexample :
    (handleUserTokenPoll ⟨some "cid", none⟩ none {} 0).resp.status = 400 ∧
    ¬ (handleUserTokenPoll ⟨some "cid", none⟩ none {} 0).resp.status = 503 := by
  decide

/-- C5 (amended): with the store unconfigured, a start call (client id
configured, upstream ok) still returns status 200 echoing the upstream
codes, and every poll whose body carries a non-empty `device_code` returns
status 503 with error `server_error` without issuing any upstream request. -/
theorem C5_store_down_degradation (clientId redirect_uri : Option String)
    (upstream : StartUpstream) (now : Nat) (d : String) (data : TokenData)
    (now2 : Nat) (hcid : truthy clientId = true) (hok : upstream.ok = true)
    (hd : d ≠ "") :
    (handleUserTokenStart ⟨clientId, none⟩ redirect_uri upstream now).status = 200 ∧
    (handleUserTokenStart ⟨clientId, none⟩ redirect_uri upstream now).body.device_code
      = some upstream.device_code ∧
    (handleUserTokenStart ⟨clientId, none⟩ redirect_uri upstream now).body.user_code
      = some upstream.user_code ∧
    (handleUserTokenStart ⟨clientId, none⟩ redirect_uri upstream now).body.verification_uri
      = some upstream.verification_uri ∧
    (handleUserTokenStart ⟨clientId, none⟩ redirect_uri upstream now).body.expires_in
      = some upstream.expires_in ∧
    (handleUserTokenStart ⟨clientId, none⟩ redirect_uri upstream now).body.interval
      = some upstream.interval ∧
    (handleUserTokenPoll ⟨clientId, none⟩ (some d) data now2).resp.status = 503 ∧
    (handleUserTokenPoll ⟨clientId, none⟩ (some d) data now2).resp.body.error
      = some "server_error" ∧
    (handleUserTokenPoll ⟨clientId, none⟩ (some d) data now2).upstreamCalled
      = false := by
  have hdc : truthy (some d) = true := by simp [truthy, hd]
  refine ⟨?_, ?_, ?_, ?_, ?_, ?_, ?_, ?_, ?_⟩ <;>
    simp [handleUserTokenStart, handleUserTokenPoll, hcid, hok, hdc]

/-- C5 (amended) witness: a concrete start and poll against an environment
with no `DEVICE_CODES` binding. -/
theorem C5_store_down_degradation_witness :
    (handleUserTokenStart ⟨some "cid", none⟩ none
        ⟨true, "d", "U-1", "https://v", 900, 5, none, none⟩ 0).status = 200 ∧
    (handleUserTokenStart ⟨some "cid", none⟩ none
        ⟨true, "d", "U-1", "https://v", 900, 5, none, none⟩ 0).body.device_code
      = some "d" ∧
    (handleUserTokenStart ⟨some "cid", none⟩ none
        ⟨true, "d", "U-1", "https://v", 900, 5, none, none⟩ 0).body.user_code
      = some "U-1" ∧
    (handleUserTokenStart ⟨some "cid", none⟩ none
        ⟨true, "d", "U-1", "https://v", 900, 5, none, none⟩ 0).body.verification_uri
      = some "https://v" ∧
    (handleUserTokenStart ⟨some "cid", none⟩ none
        ⟨true, "d", "U-1", "https://v", 900, 5, none, none⟩ 0).body.expires_in
      = some 900 ∧
    (handleUserTokenStart ⟨some "cid", none⟩ none
        ⟨true, "d", "U-1", "https://v", 900, 5, none, none⟩ 0).body.interval
      = some 5 ∧
    (handleUserTokenPoll ⟨some "cid", none⟩ (some "d") {} 9).resp.status = 503 ∧
    (handleUserTokenPoll ⟨some "cid", none⟩ (some "d") {} 9).resp.body.error
      = some "server_error" ∧
    (handleUserTokenPoll ⟨some "cid", none⟩ (some "d") {} 9).upstreamCalled
      = false :=
  C5_store_down_degradation (some "cid") none
    ⟨true, "d", "U-1", "https://v", 900, 5, none, none⟩ 0 "d" {} 9
    (by decide) rfl (by decide)

/-- C9 counterexample: an upstream response whose `error` field is present
but the empty string is neither `authorization_pending` nor `slow_down`,
yet the poll does not return the 400 pass-through: JavaScript's
`if (data.error)` truthiness test sends it down the success branch, which
returns 200 and deletes the session. -/
theorem C9_counterexample :
    (handleUserTokenPoll
        ⟨some "cid", some [("d9", ⟨"d9", "U-9", "https://v", 900, 5, 0, none⟩)]⟩
        (some "d9") { error := some "", error_description := some "boom" } 0).resp.status
      = 200 ∧
    ¬ (handleUserTokenPoll
        ⟨some "cid", some [("d9", ⟨"d9", "U-9", "https://v", 900, 5, 0, none⟩)]⟩
        (some "d9") { error := some "", error_description := some "boom" } 0).resp.status
      = 400 ∧
    (handleUserTokenPoll
        ⟨some "cid", some [("d9", ⟨"d9", "U-9", "https://v", 900, 5, 0, none⟩)]⟩
        (some "d9") { error := some "", error_description := some "boom" } 0).DEVICE_CODES
      = some [] := by
  refine ⟨rfl, by decide, rfl⟩

/-- C9 (amended): for every upstream response whose `error` field holds a
non-empty value that is neither `authorization_pending` nor `slow_down`,
the poll returns status 400 carrying that `error` and `error_description`
verbatim, the session is not deleted (store exactly unchanged), and
repeating the same poll at any later time yields the same 400 response. -/
theorem C9_terminal_passthrough (kv : KV) (clientId : Option String)
    (d : String) (s : DeviceSession) (e : String) (data : TokenData)
    (now now2 : Nat) (hd : d ≠ "") (hs : kvGet kv d = some s)
    (he : data.error = some e) (hne : e ≠ "")
    (hap : e ≠ "authorization_pending") (hsd : e ≠ "slow_down") :
    (handleUserTokenPoll ⟨clientId, some kv⟩ (some d) data now).resp.status = 400 ∧
    (handleUserTokenPoll ⟨clientId, some kv⟩ (some d) data now).resp.body.error
      = some e ∧
    (handleUserTokenPoll ⟨clientId, some kv⟩ (some d) data now).resp.body.error_description
      = data.error_description ∧
    (handleUserTokenPoll ⟨clientId, some kv⟩ (some d) data now).DEVICE_CODES
      = some kv ∧
    (handleUserTokenPoll ⟨clientId, some kv⟩ (some d) data now2).resp
      = (handleUserTokenPoll ⟨clientId, some kv⟩ (some d) data now).resp := by
  have hdc : truthy (some d) = true := by simp [truthy, hd]
  have hte : truthy (some e) = true := by simp [truthy, hne]
  refine ⟨?_, ?_, ?_, ?_, ?_⟩ <;>
    simp [handleUserTokenPoll, hdc, hs, hte, he, hap, hsd]

/-- C9 (amended) witness: a concrete `access_denied` poll, repeated at a
later time. -/
theorem C9_terminal_passthrough_witness :
    (handleUserTokenPoll
        ⟨some "cid", some [("d", ⟨"d", "U-1", "https://v", 900, 5, 0, none⟩)]⟩
        (some "d") { error := some "access_denied",
                     error_description := some "user denied" } 0).resp.status = 400 ∧
    (handleUserTokenPoll
        ⟨some "cid", some [("d", ⟨"d", "U-1", "https://v", 900, 5, 0, none⟩)]⟩
        (some "d") { error := some "access_denied",
                     error_description := some "user denied" } 0).resp.body.error
      = some "access_denied" ∧
    (handleUserTokenPoll
        ⟨some "cid", some [("d", ⟨"d", "U-1", "https://v", 900, 5, 0, none⟩)]⟩
        (some "d") { error := some "access_denied",
                     error_description := some "user denied" } 0).resp.body.error_description
      = some "user denied" ∧
    (handleUserTokenPoll
        ⟨some "cid", some [("d", ⟨"d", "U-1", "https://v", 900, 5, 0, none⟩)]⟩
        (some "d") { error := some "access_denied",
                     error_description := some "user denied" } 0).DEVICE_CODES
      = some [("d", ⟨"d", "U-1", "https://v", 900, 5, 0, none⟩)] ∧
    (handleUserTokenPoll
        ⟨some "cid", some [("d", ⟨"d", "U-1", "https://v", 900, 5, 0, none⟩)]⟩
        (some "d") { error := some "access_denied",
                     error_description := some "user denied" } 60).resp
      = (handleUserTokenPoll
          ⟨some "cid", some [("d", ⟨"d", "U-1", "https://v", 900, 5, 0, none⟩)]⟩
          (some "d") { error := some "access_denied",
                       error_description := some "user denied" } 0).resp := by
  have h := C9_terminal_passthrough
    [("d", ⟨"d", "U-1", "https://v", 900, 5, 0, none⟩)] (some "cid") "d"
    ⟨"d", "U-1", "https://v", 900, 5, 0, none⟩ "access_denied"
    { error := some "access_denied", error_description := some "user denied" } 0 60
    (by decide) (by decide) rfl (by decide) (by decide) (by decide)
  exact ⟨h.1, h.2.1, h.2.2.1, h.2.2.2.1, h.2.2.2.2⟩

/-- C10 counterexample: the branch is not decided by mere presence of an
`error` field — an upstream response that does contain `error` (the empty
string) still takes the success branch: status 200 with the session deleted,
because `if (data.error)` tests truthiness, not presence. -/
theorem C10_counterexample :
    (handleUserTokenPoll
        ⟨some "cid", some [("d10", ⟨"d10", "U-10", "https://v", 600, 7, 0, none⟩)]⟩
        (some "d10") { error := some "" } 5).resp.status = 200 ∧
    (handleUserTokenPoll
        ⟨some "cid", some [("d10", ⟨"d10", "U-10", "https://v", 600, 7, 0, none⟩)]⟩
        (some "d10") { error := some "" } 5).DEVICE_CODES = some [] ∧
    (handleUserTokenPoll
        ⟨some "cid", some [("d10", ⟨"d10", "U-10", "https://v", 600, 7, 0, none⟩)]⟩
        (some "d10") { error := some "" } 5).resp.body.access_token = none := by
  refine ⟨rfl, rfl, rfl⟩

/-- C10 (amended): the poll branches solely on the truthiness of the
upstream `error` field; for every upstream response whose `error` is absent
or empty — even one lacking `access_token` entirely — the handler takes the
success branch: it deletes the session and returns status 200 whose
`access_token` is whatever (possibly absent) value upstream sent. -/
theorem C10_success_on_falsy_error (kv : KV) (clientId : Option String)
    (d : String) (s : DeviceSession) (data : TokenData) (now : Nat)
    (hd : d ≠ "") (hs : kvGet kv d = some s)
    (herr : truthy data.error = false) :
    (handleUserTokenPoll ⟨clientId, some kv⟩ (some d) data now).resp.status = 200 ∧
    (handleUserTokenPoll ⟨clientId, some kv⟩ (some d) data now).resp.body.access_token
      = data.access_token ∧
    (handleUserTokenPoll ⟨clientId, some kv⟩ (some d) data now).DEVICE_CODES
      = some (kvDelete kv d) ∧
    kvGet (kvDelete kv d) d = none := by
  have hdc : truthy (some d) = true := by simp [truthy, hd]
  refine ⟨?_, ?_, ?_, kvGet_kvDelete_self kv d⟩ <;>
    simp [handleUserTokenPoll, hdc, hs, herr]

/-- C10 (amended) witness: an upstream response with no fields at all (no
`error`, no `access_token`) still resolves the session: 200, token absent,
session deleted. -/
theorem C10_success_on_falsy_error_witness :
    (handleUserTokenPoll
        ⟨some "cid", some [("d", ⟨"d", "U-1", "https://v", 900, 5, 0, none⟩)]⟩
        (some "d") {} 0).resp.status = 200 ∧
    (handleUserTokenPoll
        ⟨some "cid", some [("d", ⟨"d", "U-1", "https://v", 900, 5, 0, none⟩)]⟩
        (some "d") {} 0).resp.body.access_token = none ∧
    (handleUserTokenPoll
        ⟨some "cid", some [("d", ⟨"d", "U-1", "https://v", 900, 5, 0, none⟩)]⟩
        (some "d") {} 0).DEVICE_CODES
      = some (kvDelete [("d", ⟨"d", "U-1", "https://v", 900, 5, 0, none⟩)] "d") ∧
    kvGet (kvDelete [("d", ⟨"d", "U-1", "https://v", 900, 5, 0, none⟩)] "d") "d"
      = none :=
  C10_success_on_falsy_error
    [("d", ⟨"d", "U-1", "https://v", 900, 5, 0, none⟩)] (some "cid") "d"
    ⟨"d", "U-1", "https://v", 900, 5, 0, none⟩ {} 0
    (by decide) (by decide) rfl
